import Mathlib

/-
Verification development for the aggressive-flow monitor in src/index.js.

The embedding below is a shallow translation of the decision pipeline:
SymbolState (trailing-window trade buffer), SignalEngine.shouldAlert,
ExhaustionTracker (waiting state machine), CooldownManager, AlertManager's
dispatch gate, and the per-message handler of MultiWebSocketManager,
plus the reconnect backoff logic.  JavaScript numbers are modelled as
exact rationals (Rat) and millisecond timestamps as Int; Date.now() is
passed in explicitly as a parameter wherever the source reads the clock.
-/

namespace BotLiq

/-- Dominant side of the aggressive flow; the source uses the strings
'buy' and 'sell'. -/
inductive Side where
  | buy
  | sell
  deriving DecidableEq, Repr

/-- One retained trade, as built inside SymbolState.addTrade:
exactly one of buyVol / sellVol is the trade value price*quantity,
the other is zero, depending on isBuyerMaker. -/
structure Trade where
  timestamp : Int
  price : Rat
  buyVol : Rat
  sellVol : Rat
  deriving DecidableEq, Repr, Inhabited

/-- Per-symbol trailing-window state (class SymbolState, src/index.js
lines 376-460).  windowMs = windowSeconds * 1000. -/
structure SymbolState where
  windowMs : Int
  trades : List Trade
  firstPrice : Option Rat
  lastPrice : Option Rat
  deriving DecidableEq, Repr

/-- SymbolState.cleanup (lines 405-414): evict all trades strictly older
than currentTime - windowMs, then set firstPrice to the oldest retained
trade's price, or null when the buffer emptied. -/
def SymbolState.cleanup (s : SymbolState) (currentTime : Int) : SymbolState :=
  let cutoff := currentTime - s.windowMs
  let kept := s.trades.filter (fun t => cutoff ≤ t.timestamp)
  { s with trades := kept, firstPrice := kept.head?.map Trade.price }

/-- The trade object built at the top of SymbolState.addTrade
(lines 386-393): value = price * quantity, booked on the buy side when
the buyer was the taker (isBuyerMaker = false), on the sell side
otherwise. -/
def mkTrade (timestamp : Int) (price quantity : Rat) (isBuyerMaker : Bool) : Trade :=
  let volume := price * quantity
  { timestamp := timestamp
    price := price
    buyVol := if isBuyerMaker then 0 else volume
    sellVol := if isBuyerMaker then volume else 0 }

/-- SymbolState.addTrade (lines 385-403): append the derived trade,
update lastPrice, set firstPrice on the very first trade, then run
cleanup at the incoming trade's timestamp. -/
def SymbolState.addTrade (s : SymbolState) (timestamp : Int) (price quantity : Rat)
    (isBuyerMaker : Bool) : SymbolState :=
  let s1 : SymbolState :=
    { s with
      trades := s.trades ++ [mkTrade timestamp price quantity isBuyerMaker]
      lastPrice := some price
      firstPrice := match s.firstPrice with
        | none => some price
        | some p => some p }
  s1.cleanup timestamp

/-- SymbolState.reset (lines 455-459). -/
def SymbolState.reset (s : SymbolState) : SymbolState :=
  { s with trades := [], firstPrice := none, lastPrice := none }

/-- The stats snapshot returned by SymbolState.getStats (lines 416-453). -/
structure Stats where
  buyVolume : Rat
  sellVolume : Rat
  totalVolume : Rat
  dominantSide : Side
  dominance : Rat
  priceChange : Rat
  duration : Rat
  tradeCount : Nat
  lastPrice : Option Rat
  deriving DecidableEq, Repr

/-- SymbolState.getStats (lines 416-453).  Returns null when no trades
remain or the summed volume is zero.  The JavaScript truthiness test
`this.firstPrice ? ... : 0` treats both null and 0 as falsy, which the
`fp = 0` test below reproduces (Option.getD 0 also matches the
null-coerces-to-0 arithmetic JavaScript would perform). -/
def SymbolState.getStats (s : SymbolState) : Option Stats :=
  if s.trades.isEmpty then none
  else
    let buyVolume : Rat := s.trades.foldl (fun acc t => acc + t.buyVol) 0
    let sellVolume : Rat := s.trades.foldl (fun acc t => acc + t.sellVol) 0
    let totalVolume := buyVolume + sellVolume
    if totalVolume = 0 then none
    else
      let buyDominance := buyVolume / totalVolume * 100
      let sellDominance := sellVolume / totalVolume * 100
      let dominantSide := if sellVolume < buyVolume then Side.buy else Side.sell
      let dominance := max buyDominance sellDominance
      let fp := s.firstPrice.getD 0
      let priceChange := if fp = 0 then 0 else (s.lastPrice.getD 0 - fp) / fp * 100
      let duration :=
        (((s.trades.getLastD default).timestamp - (s.trades.headD default).timestamp : Int) : Rat)
          / 1000
      some
        { buyVolume := buyVolume
          sellVolume := sellVolume
          totalVolume := totalVolume
          dominantSide := dominantSide
          dominance := dominance
          priceChange := priceChange
          duration := duration
          tradeCount := s.trades.length
          lastPrice := s.lastPrice }

/-- One parsed inbound feed message, the four fields handleMessage
extracts before calling TradeAggregator.addTrade. -/
structure TradeInput where
  timestamp : Int
  price : Rat
  quantity : Rat
  isBuyerMaker : Bool
  deriving DecidableEq, Repr

/-- A sequence of addTrade calls applied in order to a SymbolState. -/
def runTrades (s : SymbolState) (inputs : List TradeInput) : SymbolState :=
  inputs.foldl (fun st i => st.addTrade i.timestamp i.price i.quantity i.isBuyerMaker) s

/-- Per-symbol runtime configuration record (CONFIG.SYMBOL_CONFIGS entry,
mutated through RuntimeConfig). -/
structure SymbolConfig where
  minVolumeUSD : Rat
  minDominance : Rat
  minPriceChange : Rat
  cooldownMinutes : Rat
  enabled : Bool
  deriving DecidableEq, Repr

/-- SignalEngine.shouldAlert (lines 507-524).  The config argument is
runtimeConfig.get(symbol), null when the symbol has no entry. -/
def shouldAlert (config? : Option SymbolConfig) (stats? : Option Stats) : Bool :=
  match stats? with
  | none => false
  | some stats =>
    match config? with
    | none => false
    | some config =>
      if !config.enabled then false
      else if stats.totalVolume < config.minVolumeUSD then false
      else if stats.dominance < config.minDominance then false
      else if |stats.priceChange| < config.minPriceChange then false
      else if stats.dominantSide = Side.buy && stats.priceChange < 0 then false
      else if stats.dominantSide = Side.sell && 0 < stats.priceChange then false
      else true

/-- CONFIG.EXHAUSTION_AVG_CANDLES (N = 5). -/
def EXHAUSTION_AVG_CANDLES : Nat := 5

/-- CONFIG.EXHAUSTION_THRESHOLD (K = 0.5). -/
def EXHAUSTION_THRESHOLD : Rat := 1 / 2

/-- CONFIG.EXHAUSTION_MAX_WAIT (maxWaitCandles = 3). -/
def EXHAUSTION_MAX_WAIT : Nat := 3

/-- One entry of aggressionHistory: timestamp, aggression = dominant-side
volume, and the absolute price change of the window at that tick. -/
structure AggressionSample where
  timestamp : Int
  aggression : Rat
  priceChange : Rat
  deriving DecidableEq, Repr

/-- The per-symbol record stored in ExhaustionTracker.waitingSymbols. -/
structure WaitingRecord where
  pendingStats : Stats
  waitStartTime : Int
  candleCount : Nat
  aggressionHistory : List AggressionSample
  deriving DecidableEq, Repr

/-- ExhaustionTracker.calculateAggression (lines 658-660). -/
def calculateAggression (stats : Stats) : Rat :=
  if stats.dominantSide = Side.buy then stats.buyVolume else stats.sellVolume

/-- ExhaustionTracker.calculateAvgAggression (lines 663-667). -/
def calculateAvgAggression (history : List AggressionSample) : Rat :=
  if history.length = 0 then 0
  else history.foldl (fun acc h => acc + h.aggression) 0 / (history.length : Rat)

/-- The slice(-3) of a history list: its last three entries. -/
def lastThree (history : List AggressionSample) : List AggressionSample :=
  history.drop (history.length - 3)

/-- ExhaustionTracker.isVolumeDecreasing (lines 670-676): the last three
aggression samples are strictly decreasing. -/
def isVolumeDecreasing (history : List AggressionSample) : Bool :=
  if history.length < 3 then false
  else
    match lastThree history with
    | [a, b, c] => decide (c.aggression < b.aggression) && decide (b.aggression < a.aggression)
    | _ => false

/-- ExhaustionTracker.isPriceSlowing (lines 679-688): the latest recorded
absolute price change strictly dropped, or is below the 0.1 neutrality
threshold. -/
def isPriceSlowing (history : List AggressionSample) : Bool :=
  if history.length < 3 then false
  else
    match lastThree history with
    | [_, b, c] => decide (c.priceChange < b.priceChange) || decide (c.priceChange < 1 / 10)
    | _ => false

/-- ExhaustionTracker.startWaiting (lines 564-577): capture pendingStats
at candidate time and seed aggressionHistory with one sample. -/
def startWaiting (now : Int) (stats : Stats) : WaitingRecord :=
  { pendingStats := stats
    waitStartTime := now
    candleCount := 0
    aggressionHistory :=
      [{ timestamp := now
         aggression := calculateAggression stats
         priceChange := |stats.priceChange| }] }

/-- ExhaustionTracker.updateAggression (lines 580-598): append the current
sample, trim the history to at most N+1 entries from the front, and
increment the tick counter. -/
def updateAggression (w : WaitingRecord) (now : Int) (stats : Stats) : WaitingRecord :=
  let history :=
    w.aggressionHistory ++
      [{ timestamp := now
         aggression := calculateAggression stats
         priceChange := |stats.priceChange| }]
  let history :=
    if EXHAUSTION_AVG_CANDLES + 1 < history.length then history.tail else history
  { w with aggressionHistory := history, candleCount := w.candleCount + 1 }

/-- The reason strings returned by ExhaustionTracker.checkExhaustion. -/
inductive CheckReason where
  | notWaiting
  | timeout
  | insufficientData
  | stillWaiting
  | exhaustionDetected
  deriving DecidableEq, Repr

/-- Result of checkExhaustion: the confirmed flag and the reason. -/
structure CheckResult where
  confirmed : Bool
  reason : CheckReason
  deriving DecidableEq, Repr

/-- The conjunction computed in checkExhaustion (lines 619-629):
aggressionDecreased (current aggression strictly under K times the
average of the earlier history entries), volumeDecreasing and
priceSlowing. -/
def exhaustionConfirmed (w : WaitingRecord) (stats : Stats) : Bool :=
  decide (calculateAggression stats <
      EXHAUSTION_THRESHOLD * calculateAvgAggression w.aggressionHistory.dropLast) &&
    isVolumeDecreasing w.aggressionHistory && isPriceSlowing w.aggressionHistory

/-- ExhaustionTracker.checkExhaustion (lines 601-643), as a function of
the stored record for the symbol (none when the symbol is not waiting).
The second component is the record left in waitingSymbols afterwards:
the source deletes the record itself only on timeout (cancelWaiting);
on confirm the deletion is done later by the caller. -/
def checkExhaustion (w? : Option WaitingRecord) (stats : Stats) :
    CheckResult × Option WaitingRecord :=
  match w? with
  | none => ({ confirmed := false, reason := CheckReason.notWaiting }, none)
  | some w =>
    if EXHAUSTION_MAX_WAIT ≤ w.candleCount then
      ({ confirmed := false, reason := CheckReason.timeout }, none)
    else if w.aggressionHistory.length < 3 then
      ({ confirmed := false, reason := CheckReason.insufficientData }, some w)
    else if exhaustionConfirmed w stats then
      ({ confirmed := true, reason := CheckReason.exhaustionDetected }, some w)
    else
      ({ confirmed := false, reason := CheckReason.stillWaiting }, some w)

/-- ExhaustionTracker.getPendingStats (lines 652-655). -/
def getPendingStats (w? : Option WaitingRecord) : Option Stats :=
  w?.map WaitingRecord.pendingStats

/-- The cooldown store: CooldownManager.lastAlerts, a map keyed by the
string symbol + '_' + dominantSide.  Since the side suffix determines
the key uniquely we model the key as the pair (symbol, side). -/
abbrev CooldownMap := List ((String × Side) × Int)

/-- Map.get on the association-list model. -/
def mapGet (m : CooldownMap) (k : String × Side) : Option Int :=
  (m.find? (fun p => p.1 = k)).map Prod.snd

/-- Map.set on the association-list model: replace any entry at the key. -/
def mapSet (m : CooldownMap) (k : String × Side) (v : Int) : CooldownMap :=
  (k, v) :: m.filter (fun p => ¬ p.1 = k)

/-- CooldownManager.canAlert (lines 705-719), with the current clock and
the symbol's runtime config passed explicitly. -/
def canAlert (config? : Option SymbolConfig) (m : CooldownMap) (symbol : String)
    (side : Side) (now : Int) : Bool :=
  match config? with
  | none => false
  | some config =>
    match mapGet m (symbol, side) with
    | none => true
    | some lastAlert =>
      decide (config.cooldownMinutes * 60 * 1000 ≤ ((now - lastAlert : Int) : Rat))

/-- CooldownManager.recordAlert (lines 721-724). -/
def recordAlert (m : CooldownMap) (symbol : String) (side : Side) (now : Int) : CooldownMap :=
  mapSet m (symbol, side) now

/-- AlertManager's pending-dispatch set: the keys of pendingAlerts. -/
abbrev PendingSet := List (String × Side)

/-- AlertManager.sendAlert (lines 754-786), up to the point where the
delivery timer is armed: if the (symbol, dominantSide) key is already
pending the call is dropped; otherwise the key is marked pending and
delivery is scheduled at the next whole-minute boundary.  The clock is
a Nat because Date.now() is a nonnegative millisecond count.  Returns
the updated pending set and the scheduled (key, deliveryTime), or none
when the call was dropped as a duplicate. -/
def sendAlert (pending : PendingSet) (symbol : String) (stats : Stats) (now : Nat) :
    PendingSet × Option ((String × Side) × Nat) :=
  let key := (symbol, stats.dominantSide)
  if key ∈ pending then (pending, none)
  else
    let nextMinute := (now + 59999) / 60000 * 60000
    (key :: pending, some (key, nextMinute))

/-- The timer callback of sendAlert (lines 770-785): whether formatting
and delivery succeed (outcome = true) or throw (outcome = false), the
finally block deletes the key from pendingAlerts. -/
def deliverAlert (pending : PendingSet) (key : String × Side) (_outcome : Bool) : PendingSet :=
  pending.filter (fun k => ¬ k = key)

/-- CONFIG.MAX_RECONNECTS default. -/
def MAX_RECONNECTS : Nat := 10

/-- MultiWebSocketManager.reconnectSymbol (lines 1005-1019), as a function
of the symbol's stored attempt counter (none when the symbol was never
closed before).  Returns the counter left in the map and the scheduled
reconnect delay in milliseconds, none when the symbol is abandoned. -/
def reconnectSymbol (attempts? : Option Nat) : Option Nat × Option Nat :=
  let attempts := attempts?.getD 0
  if MAX_RECONNECTS ≤ attempts then (attempts?, none)
  else (some (attempts + 1), some (5000 * (attempts + 1)))

/-- The ws open handler (lines 903-906): a successful reopen stores 0 as
the symbol's attempt counter. -/
def onOpenResetAttempts (_attempts? : Option Nat) : Option Nat :=
  some 0

/-- The per-symbol slice of mutable state touched by handleMessage. -/
structure PipelineState where
  window : SymbolState
  waiting : Option WaitingRecord
  cooldown : CooldownMap
  deriving DecidableEq, Repr

/-- Result of one handleMessage step: the new state and the stats handed
to AlertManager.sendAlert, none when no alert was dispatched. -/
structure PipelineResult where
  state : PipelineState
  alert : Option Stats
  deriving DecidableEq, Repr

/-- The decision pipeline of MultiWebSocketManager.handleMessage
(lines 924-984) for one symbol, after JSON parsing: addTrade, getStats,
the half-minVolume gate, then either the exhaustion update/check path
with its confirm / cooldown-blocked / timeout branches, or the
shouldAlert -> startWaiting candidate path.  Date.now() is modelled as
the single message-processing time `now`. -/
def handleMessage (config? : Option SymbolConfig) (st : PipelineState) (symbol : String)
    (now : Int) (input : TradeInput) : PipelineResult :=
  let window := st.window.addTrade input.timestamp input.price input.quantity input.isBuyerMaker
  match window.getStats, config? with
  | some stats, some config =>
    if config.minVolumeUSD * (1 / 2) ≤ stats.totalVolume then
      match st.waiting with
      | some w =>
        let w' := updateAggression w now stats
        let res := checkExhaustion (some w') stats
        if res.1.confirmed then
          if canAlert config? st.cooldown symbol stats.dominantSide now then
            { state :=
                { window := window.reset
                  waiting := none
                  cooldown := recordAlert st.cooldown symbol stats.dominantSide now }
              alert := getPendingStats res.2 }
          else
            { state := { window := window, waiting := none, cooldown := st.cooldown }
              alert := none }
        else if res.1.reason = CheckReason.timeout then
          { state := { window := window.reset, waiting := res.2, cooldown := st.cooldown }
            alert := none }
        else
          { state := { window := window, waiting := res.2, cooldown := st.cooldown }
            alert := none }
      | none =>
        if shouldAlert config? (some stats) then
          { state :=
              { window := window
                waiting := some (startWaiting now stats)
                cooldown := st.cooldown }
            alert := none }
        else
          { state := { window := window, waiting := none, cooldown := st.cooldown }
            alert := none }
    else
      { state := { st with window := window }, alert := none }
  | _, _ => { state := { st with window := window }, alert := none }

/-! ### Helper lemmas -/

@[simp] theorem side_sell_ne_buy : ¬ (Side.sell = Side.buy) := by decide

@[simp] theorem side_buy_ne_sell : ¬ (Side.buy = Side.sell) := by decide

theorem foldl_add_map {α : Type} (f : α → Rat) (l : List α) (a : Rat) :
    l.foldl (fun acc x => acc + f x) a = a + (l.map f).sum := by
  induction l generalizing a with
  | nil => simp
  | cons x xs ih => simp only [List.foldl_cons, List.map_cons, List.sum_cons, ih]; ring

theorem exists_three {α : Type} (l : List α) (h : l.length = 3) :
    ∃ a b c, l = [a, b, c] := by
  rcases l with _ | ⟨a, l⟩
  · simp at h
  rcases l with _ | ⟨b, l⟩
  · simp at h
  rcases l with _ | ⟨c, l⟩
  · simp at h
  rcases l with _ | ⟨d, l⟩
  · exact ⟨a, b, c, rfl⟩
  · simp at h

/-! ### C4: window eviction invariant -/

/-- C4: after every addTrade call, the retained buffer ends with the trade
just added, no retained trade is older than windowMs relative to it, and
firstPrice is the oldest retained trade's price (None when the buffer is
empty, which the head-Option formulation covers). -/
theorem addTrade_window_invariant (s : SymbolState) (i : TradeInput)
    (hw : 0 ≤ s.windowMs) :
    (∃ tn, (s.addTrade i.timestamp i.price i.quantity i.isBuyerMaker).trades.getLast? = some tn ∧
      tn.timestamp = i.timestamp ∧
      ∀ t ∈ (s.addTrade i.timestamp i.price i.quantity i.isBuyerMaker).trades,
        tn.timestamp - t.timestamp ≤ s.windowMs) ∧
    (s.addTrade i.timestamp i.price i.quantity i.isBuyerMaker).firstPrice =
      ((s.addTrade i.timestamp i.price i.quantity i.isBuyerMaker).trades.head?).map Trade.price := by
  have htr : (s.addTrade i.timestamp i.price i.quantity i.isBuyerMaker).trades
      = (s.trades ++ [mkTrade i.timestamp i.price i.quantity i.isBuyerMaker]).filter
          (fun t => decide (i.timestamp - s.windowMs ≤ t.timestamp)) := rfl
  have hts : (mkTrade i.timestamp i.price i.quantity i.isBuyerMaker).timestamp = i.timestamp := rfl
  constructor
  · refine ⟨mkTrade i.timestamp i.price i.quantity i.isBuyerMaker, ?_, hts, ?_⟩
    · rw [htr, List.filter_append]
      have hkeep : List.filter (fun t => decide (i.timestamp - s.windowMs ≤ t.timestamp))
          [mkTrade i.timestamp i.price i.quantity i.isBuyerMaker] =
          [mkTrade i.timestamp i.price i.quantity i.isBuyerMaker] := by
        simp only [List.filter_cons, List.filter_nil]
        rw [if_pos]
        rw [hts]
        exact decide_eq_true (by omega)
      rw [hkeep, List.getLast?_concat]
    · intro t ht
      rw [htr, List.mem_filter] at ht
      have hcut := of_decide_eq_true ht.2
      rw [hts]
      omega
  · rfl

/-! ### C5: stats snapshot invariants -/

/-- C5: every non-null stats snapshot has dominance in [50, 100],
totalVolume exactly buyVolume + sellVolume, and the dominant side equal
to the strictly larger volume side, provided the retained trades carry
nonnegative volumes (true of every trade built from a nonnegative
price and quantity). -/
theorem getStats_invariants (s : SymbolState) (stats : Stats)
    (hnn : ∀ t ∈ s.trades, 0 ≤ t.buyVol ∧ 0 ≤ t.sellVol)
    (h : s.getStats = some stats) :
    50 ≤ stats.dominance ∧ stats.dominance ≤ 100 ∧
    stats.totalVolume = stats.buyVolume + stats.sellVolume ∧
    (stats.sellVolume < stats.buyVolume → stats.dominantSide = Side.buy) ∧
    (stats.buyVolume < stats.sellVolume → stats.dominantSide = Side.sell) := by
  simp only [SymbolState.getStats] at h
  split at h
  · exact absurd h (by simp)
  · split at h
    · exact absurd h (by simp)
    · rename_i hne hT
      rw [Option.some.injEq] at h
      subst h
      dsimp only at hT ⊢
      set B := s.trades.foldl (fun acc t => acc + t.buyVol) 0 with hBdef
      set S := s.trades.foldl (fun acc t => acc + t.sellVol) 0 with hSdef
      have hB : 0 ≤ B := by
        rw [hBdef, foldl_add_map Trade.buyVol, zero_add]
        refine List.sum_nonneg ?_
        intro x hx
        obtain ⟨t, ht, rfl⟩ := List.mem_map.mp hx
        exact (hnn t ht).1
      have hS : 0 ≤ S := by
        rw [hSdef, foldl_add_map Trade.sellVol, zero_add]
        refine List.sum_nonneg ?_
        intro x hx
        obtain ⟨t, ht, rfl⟩ := List.mem_map.mp hx
        exact (hnn t ht).2
      have hT0 : 0 < B + S := lt_of_le_of_ne (by linarith) (fun hc => hT hc.symm)
      have hsum : B / (B + S) * 100 + S / (B + S) * 100 = 100 := by
        field_simp
        ring
      refine ⟨?_, ?_, rfl, ?_, ?_⟩
      · rcases max_cases (B / (B + S) * 100) (S / (B + S) * 100) with ⟨hm, hle⟩ | ⟨hm, hle⟩ <;>
          rw [hm] <;> linarith
      · have h1 : B / (B + S) * 100 ≤ 100 := by
          rw [div_mul_eq_mul_div, div_le_iff₀ hT0]; linarith
        have h2 : S / (B + S) * 100 ≤ 100 := by
          rw [div_mul_eq_mul_div, div_le_iff₀ hT0]; linarith
        exact max_le h1 h2
      · intro hlt
        rw [if_pos hlt]
      · intro hlt
        rw [if_neg (by exact fun hc => absurd hlt (by linarith))]

/-! ### C10: deterministic tie-break -/

/-- C10: when buyVolume and sellVolume tie in a window with positive
total volume, getStats reports dominantSide sell with dominance 50
(the source ternary picks the sell branch on a tie, and both dominance
shares are exactly 50). -/
theorem getStats_tie_break (s : SymbolState) (stats : Stats)
    (h : s.getStats = some stats)
    (heq : stats.buyVolume = stats.sellVolume)
    (hpos : 0 < stats.totalVolume) :
    stats.dominantSide = Side.sell ∧ stats.dominance = 50 := by
  simp only [SymbolState.getStats] at h
  split at h
  · exact absurd h (by simp)
  · split at h
    · exact absurd h (by simp)
    · rename_i hne hT
      rw [Option.some.injEq] at h
      subst h
      dsimp only at heq hpos hT ⊢
      set B := s.trades.foldl (fun acc t => acc + t.buyVol) 0 with hBdef
      set S := s.trades.foldl (fun acc t => acc + t.sellVol) 0 with hSdef
      have hBS : B = S := heq
      rw [← hBS] at hT ⊢
      have h2B : B + B ≠ 0 := hT
      constructor
      · rw [if_neg (lt_irrefl B)]
      · have hv : B / (B + B) * 100 = 50 := by
          rw [div_mul_eq_mul_div, div_eq_iff h2B]
          ring
        rw [hv, max_self]

/-! ### Shared concrete sample data for witnesses -/

/-- A fresh 180-second window (windowSeconds = 180, so windowMs = 180000). -/
def sampleWindow : SymbolState :=
  { windowMs := 180000, trades := [], firstPrice := none, lastPrice := none }

/-- A parsed aggTrade message: sell-side trade worth 100 USD. -/
def sampleInput : TradeInput :=
  { timestamp := 1000, price := 100, quantity := 1, isBuyerMaker := true }

/-- A window holding one buy trade of 30 USD and one sell trade of 10 USD. -/
def sampleState5 : SymbolState :=
  { windowMs := 180000
    trades := [⟨0, 100, 30, 0⟩, ⟨500, 101, 0, 10⟩]
    firstPrice := some 100
    lastPrice := some 101 }

/-- The stats snapshot sampleState5.getStats computes. -/
def sampleStats5 : Stats :=
  { buyVolume := 30, sellVolume := 10, totalVolume := 40, dominantSide := Side.buy,
    dominance := 75, priceChange := 1, duration := 1 / 2, tradeCount := 2,
    lastPrice := some 101 }

/-- A window with an exact 25 / 25 buy / sell volume tie. -/
def sampleStateTie : SymbolState :=
  { windowMs := 180000
    trades := [⟨0, 100, 25, 0⟩, ⟨0, 100, 0, 25⟩]
    firstPrice := some 100
    lastPrice := some 100 }

/-- The stats snapshot sampleStateTie.getStats computes. -/
def sampleStatsTie : Stats :=
  { buyVolume := 25, sellVolume := 25, totalVolume := 50, dominantSide := Side.sell,
    dominance := 50, priceChange := 0, duration := 0, tradeCount := 2,
    lastPrice := some 100 }

/-- An ADAUSDT-like symbol config (initial CONFIG.SYMBOL_CONFIGS values
scaled down for the witness), disabled. -/
def sampleConfigOff : SymbolConfig :=
  { minVolumeUSD := 10, minDominance := 65, minPriceChange := 3 / 5,
    cooldownMinutes := 5, enabled := false }

/-- The same config, enabled. -/
def sampleConfigOn : SymbolConfig :=
  { minVolumeUSD := 10, minDominance := 65, minPriceChange := 3 / 5,
    cooldownMinutes := 5, enabled := true }

/-- Witness for C4 at a concrete window and trade. -/
theorem addTrade_window_invariant_witness :
    (0 ≤ sampleWindow.windowMs) ∧
    ((∃ tn, (sampleWindow.addTrade sampleInput.timestamp sampleInput.price sampleInput.quantity
          sampleInput.isBuyerMaker).trades.getLast? = some tn ∧
        tn.timestamp = sampleInput.timestamp ∧
        ∀ t ∈ (sampleWindow.addTrade sampleInput.timestamp sampleInput.price sampleInput.quantity
            sampleInput.isBuyerMaker).trades,
          tn.timestamp - t.timestamp ≤ sampleWindow.windowMs) ∧
      (sampleWindow.addTrade sampleInput.timestamp sampleInput.price sampleInput.quantity
          sampleInput.isBuyerMaker).firstPrice =
        ((sampleWindow.addTrade sampleInput.timestamp sampleInput.price sampleInput.quantity
            sampleInput.isBuyerMaker).trades.head?).map Trade.price) :=
  ⟨by norm_num [sampleWindow],
   addTrade_window_invariant sampleWindow sampleInput (by norm_num [sampleWindow])⟩

/-- Witness for C5 at a concrete window. -/
theorem getStats_invariants_witness :
    (∀ t ∈ sampleState5.trades, 0 ≤ t.buyVol ∧ 0 ≤ t.sellVol) ∧
    sampleState5.getStats = some sampleStats5 ∧
    (50 ≤ sampleStats5.dominance ∧ sampleStats5.dominance ≤ 100 ∧
      sampleStats5.totalVolume = sampleStats5.buyVolume + sampleStats5.sellVolume ∧
      (sampleStats5.sellVolume < sampleStats5.buyVolume → sampleStats5.dominantSide = Side.buy) ∧
      (sampleStats5.buyVolume < sampleStats5.sellVolume → sampleStats5.dominantSide = Side.sell)) := by
  refine ⟨?_, ?_, ?_⟩
  · intro t ht
    simp only [sampleState5, List.mem_cons, List.not_mem_nil, or_false] at ht
    rcases ht with rfl | rfl <;> norm_num
  · norm_num [sampleState5, sampleStats5, SymbolState.getStats]
  · refine getStats_invariants sampleState5 sampleStats5 ?_ ?_
    · intro t ht
      simp only [sampleState5, List.mem_cons, List.not_mem_nil, or_false] at ht
      rcases ht with rfl | rfl <;> norm_num
    · norm_num [sampleState5, sampleStats5, SymbolState.getStats]

/-- Witness for C10 at a concrete tied window. -/
theorem getStats_tie_break_witness :
    sampleStateTie.getStats = some sampleStatsTie ∧
    sampleStatsTie.buyVolume = sampleStatsTie.sellVolume ∧
    0 < sampleStatsTie.totalVolume ∧
    (sampleStatsTie.dominantSide = Side.sell ∧ sampleStatsTie.dominance = 50) := by
  refine ⟨?_, ?_, ?_, ?_⟩
  · norm_num [sampleStateTie, sampleStatsTie, SymbolState.getStats]
  · norm_num [sampleStatsTie]
  · norm_num [sampleStatsTie]
  · exact getStats_tie_break sampleStateTie sampleStatsTie
      (by norm_num [sampleStateTie, sampleStatsTie, SymbolState.getStats])
      (by norm_num [sampleStatsTie]) (by norm_num [sampleStatsTie])

/-! ### C6: shouldAlert rejection cases -/

/-- C6: shouldAlert returns false whenever the stats are null, the config
is missing or disabled, the volume, dominance or absolute price change is
below its configured minimum, or the dominant side disagrees with the
sign of the price change. -/
theorem shouldAlert_false_cases (config? : Option SymbolConfig) (stats? : Option Stats)
    (h : stats? = none ∨ config? = none ∨
      ∃ config stats, config? = some config ∧ stats? = some stats ∧
        (config.enabled = false ∨ stats.totalVolume < config.minVolumeUSD ∨
         stats.dominance < config.minDominance ∨
         |stats.priceChange| < config.minPriceChange ∨
         (stats.dominantSide = Side.buy ∧ stats.priceChange < 0) ∨
         (stats.dominantSide = Side.sell ∧ 0 < stats.priceChange))) :
    shouldAlert config? stats? = false := by
  rcases h with rfl | rfl | ⟨config, stats, rfl, rfl, hcond⟩
  · cases config? <;> rfl
  · cases stats? <;> rfl
  · simp only [shouldAlert]
    split_ifs with h1 h2 h3 h4 h5 h6
    · rfl
    · rfl
    · rfl
    · rfl
    · rfl
    · rfl
    · exfalso
      simp only [Bool.not_eq_true', Bool.not_eq_false] at h1
      simp only [Bool.and_eq_true, decide_eq_true_eq, not_and, not_lt] at h5 h6
      rcases hcond with he | hv | hd | hp | ⟨hside, hpc⟩ | ⟨hside, hpc⟩
      · rw [h1] at he
        exact absurd he (by simp)
      · exact h2 hv
      · exact h3 hd
      · exact h4 hp
      · exact absurd hpc (not_lt.mpr (h5 hside))
      · exact absurd hpc (not_lt.mpr (h6 hside))

/-- Witness for C6: the disabled config rejects the strong sample stats. -/
theorem shouldAlert_false_cases_witness :
    ((some sampleStats5 : Option Stats) = none ∨ (some sampleConfigOff : Option SymbolConfig) = none ∨
      ∃ config stats, (some sampleConfigOff : Option SymbolConfig) = some config ∧
        (some sampleStats5 : Option Stats) = some stats ∧
        (config.enabled = false ∨ stats.totalVolume < config.minVolumeUSD ∨
         stats.dominance < config.minDominance ∨
         |stats.priceChange| < config.minPriceChange ∨
         (stats.dominantSide = Side.buy ∧ stats.priceChange < 0) ∨
         (stats.dominantSide = Side.sell ∧ 0 < stats.priceChange))) ∧
    shouldAlert (some sampleConfigOff) (some sampleStats5) = false := by
  have h : (some sampleStats5 : Option Stats) = none ∨
      (some sampleConfigOff : Option SymbolConfig) = none ∨
      ∃ config stats, (some sampleConfigOff : Option SymbolConfig) = some config ∧
        (some sampleStats5 : Option Stats) = some stats ∧
        (config.enabled = false ∨ stats.totalVolume < config.minVolumeUSD ∨
         stats.dominance < config.minDominance ∨
         |stats.priceChange| < config.minPriceChange ∨
         (stats.dominantSide = Side.buy ∧ stats.priceChange < 0) ∨
         (stats.dominantSide = Side.sell ∧ 0 < stats.priceChange)) :=
    Or.inr (Or.inr ⟨sampleConfigOff, sampleStats5, rfl, rfl, Or.inl rfl⟩)
  exact ⟨h, shouldAlert_false_cases (some sampleConfigOff) (some sampleStats5) h⟩

/-! ### C7: cooldown gate -/

theorem find?_filter_other (m : CooldownMap) (k k' : String × Side) (h : ¬ k' = k) :
    ((m.filter fun p => ¬ p.1 = k).find? fun p => p.1 = k') =
      (m.find? fun p => p.1 = k') := by
  induction m with
  | nil => rfl
  | cons q t ih =>
    by_cases hqk : q.1 = k
    · have hq' : ¬ q.1 = k' := fun hc => h (hc.symm.trans hqk)
      rw [List.filter_cons_of_neg (by simp [hqk]), List.find?_cons_of_neg t (by simp [hq']), ih]
    · rw [List.filter_cons_of_pos (by simp [hqk])]
      by_cases hq : q.1 = k'
      · rw [List.find?_cons_of_pos _ (by simp [hq]), List.find?_cons_of_pos t (by simp [hq])]
      · rw [List.find?_cons_of_neg _ (by simp [hq]), List.find?_cons_of_neg t (by simp [hq]), ih]

theorem mapGet_mapSet_self (m : CooldownMap) (k : String × Side) (v : Int) :
    mapGet (mapSet m k v) k = some v := by
  unfold mapGet mapSet
  rw [List.find?_cons_of_pos _ (by simp)]
  rfl

theorem mapGet_mapSet_other (m : CooldownMap) (k k' : String × Side) (v : Int) (h : ¬ k' = k) :
    mapGet (mapSet m k v) k' = mapGet m k' := by
  unfold mapGet mapSet
  have hkk' : ¬ ((k, v).1 = k') := fun hc => h hc.symm
  rw [List.find?_cons_of_neg _ (by simpa using hkk'), find?_filter_other m k k' h]

/-- C7: with a missing config canAlert fails closed; with no recorded
alert for the (symbol, side) key it passes; with a recorded alert it
passes exactly when the elapsed time reaches cooldownMinutes in
milliseconds; immediately after recordAlert the same key is blocked
until the cooldown elapses; and recording one side never changes the
answer for the other side of the same symbol. -/
theorem canAlert_cooldown_spec (cfg : SymbolConfig) (m : CooldownMap) (symbol : String)
    (side side' : Side) (now now' last : Int) :
    (canAlert none m symbol side now = false) ∧
    (mapGet m (symbol, side) = none → canAlert (some cfg) m symbol side now = true) ∧
    (mapGet m (symbol, side) = some last →
      (canAlert (some cfg) m symbol side now = true ↔
        cfg.cooldownMinutes * 60 * 1000 ≤ ((now - last : Int) : Rat))) ∧
    (canAlert (some cfg) (recordAlert m symbol side now) symbol side now' = true ↔
      cfg.cooldownMinutes * 60 * 1000 ≤ ((now' - now : Int) : Rat)) ∧
    (¬ side' = side →
      canAlert (some cfg) (recordAlert m symbol side now) symbol side' now' =
        canAlert (some cfg) m symbol side' now') := by
  refine ⟨rfl, ?_, ?_, ?_, ?_⟩
  · intro hnone
    simp [canAlert, hnone]
  · intro hsome
    simp [canAlert, hsome]
  · have hself := mapGet_mapSet_self m (symbol, side) now
    simp [canAlert, recordAlert, hself]
  · intro hne
    have hother := mapGet_mapSet_other m (symbol, side) (symbol, side') now
      (fun hc => hne (congrArg Prod.snd hc))
    simp only [canAlert, recordAlert, hother]

/-- Witness for C7: after recording a buy alert at time 0 with a
5-minute cooldown, the buy side is blocked at 60000 ms and open again at
300000 ms, while the sell side stays open. -/
theorem canAlert_cooldown_spec_witness :
    canAlert (some sampleConfigOn) (recordAlert [] "ADAUSDT" Side.buy 0) "ADAUSDT" Side.buy 60000
      = false ∧
    canAlert (some sampleConfigOn) (recordAlert [] "ADAUSDT" Side.buy 0) "ADAUSDT" Side.buy 300000
      = true ∧
    canAlert (some sampleConfigOn) (recordAlert [] "ADAUSDT" Side.buy 0) "ADAUSDT" Side.sell 60000
      = true := by
  have h1 := (canAlert_cooldown_spec sampleConfigOn [] "ADAUSDT" Side.buy Side.sell 0 60000 0).2.2.2.1
  have h2 := (canAlert_cooldown_spec sampleConfigOn [] "ADAUSDT" Side.buy Side.sell 0 300000 0).2.2.2.1
  have h3 := (canAlert_cooldown_spec sampleConfigOn [] "ADAUSDT" Side.buy Side.sell 0 60000 0).2.2.2.2
    (by simp)
  refine ⟨?_, ?_, ?_⟩
  · rw [Bool.eq_false_iff]
    intro hc
    have := h1.mp hc
    norm_num [sampleConfigOn] at this
  · exact h2.mpr (by norm_num [sampleConfigOn])
  · rw [h3]
    rfl

/-! ### C8: alert dispatch dedup, minute alignment, guaranteed cleanup -/

/-- C8: a sendAlert call whose (symbol, dominantSide) key is already
pending is dropped without any state change or scheduling; otherwise the
key is marked pending and delivery is scheduled at the next whole-minute
boundary, at most 60 seconds away; the pending set never holds a
duplicate key; and the delivery callback removes the key whether the
delivery attempt succeeds or throws. -/
theorem sendAlert_dedup_schedule_cleanup (pending : PendingSet) (symbol : String)
    (stats : Stats) (now : Nat) (key : String × Side) (outcome : Bool) :
    ((symbol, stats.dominantSide) ∈ pending →
      sendAlert pending symbol stats now = (pending, none)) ∧
    (¬ (symbol, stats.dominantSide) ∈ pending →
      sendAlert pending symbol stats now =
        ((symbol, stats.dominantSide) :: pending,
          some ((symbol, stats.dominantSide), (now + 59999) / 60000 * 60000)) ∧
      ((now + 59999) / 60000 * 60000) % 60000 = 0 ∧
      now ≤ (now + 59999) / 60000 * 60000 ∧
      (now + 59999) / 60000 * 60000 < now + 60000) ∧
    (pending.Nodup → ((sendAlert pending symbol stats now).1).Nodup) ∧
    ¬ key ∈ deliverAlert pending key outcome := by
  refine ⟨?_, ?_, ?_, ?_⟩
  · intro hmem
    simp [sendAlert, hmem]
  · intro hmem
    refine ⟨by simp [sendAlert, hmem], ?_, ?_, ?_⟩ <;> omega
  · intro hnd
    by_cases hmem : (symbol, stats.dominantSide) ∈ pending
    · simp [sendAlert, hmem, hnd]
    · simp [sendAlert, hmem, List.nodup_cons, hnd]
  · simp [deliverAlert, List.mem_filter]

/-- Witness for C8: a fresh buy-side alert at t = 90000 ms is scheduled
for the 120000 ms boundary, and a failed delivery still clears the key. -/
theorem sendAlert_dedup_schedule_cleanup_witness :
    (¬ ("ADAUSDT", sampleStats5.dominantSide) ∈ ([] : PendingSet)) ∧
    sendAlert [] "ADAUSDT" sampleStats5 90000 =
      ([("ADAUSDT", sampleStats5.dominantSide)],
        some (("ADAUSDT", sampleStats5.dominantSide), 120000)) ∧
    ¬ ("ADAUSDT", Side.buy) ∈ deliverAlert [("ADAUSDT", Side.buy)] ("ADAUSDT", Side.buy) false := by
  have h := sendAlert_dedup_schedule_cleanup [] "ADAUSDT" sampleStats5 90000
    ("ADAUSDT", Side.buy) false
  refine ⟨by simp, ?_, h.2.2.2⟩
  have h2 := h.2.1 (by simp)
  rw [h2.1]

/-! ### C9: reconnect backoff -/

/-- C9: while the stored attempt count is below MAX_RECONNECTS, a close
schedules a reconnect with delay baseDelay * newAttemptCount where
baseDelay = 5000 ms; since the new count never passes MAX_RECONNECTS the
delay equals min(baseDelay * attemptCount, baseDelay * MAX_RECONNECTS),
the cap being implicit in the attempt ceiling.  At or beyond the ceiling
the symbol is abandoned: nothing is scheduled and the counter is left
unchanged.  A successful reopen stores 0 as the counter. -/
theorem reconnect_backoff_spec (attempts? : Option Nat) :
    (MAX_RECONNECTS ≤ attempts?.getD 0 →
      reconnectSymbol attempts? = (attempts?, none)) ∧
    (attempts?.getD 0 < MAX_RECONNECTS →
      reconnectSymbol attempts? =
        (some (attempts?.getD 0 + 1),
          some (min (5000 * (attempts?.getD 0 + 1)) (5000 * MAX_RECONNECTS)))) ∧
    onOpenResetAttempts attempts? = some 0 := by
  refine ⟨?_, ?_, rfl⟩
  · intro hge
    unfold reconnectSymbol
    rw [if_pos hge]
  · intro hlt
    unfold reconnectSymbol
    rw [if_neg (Nat.not_le.mpr hlt)]
    have hlt' : attempts?.getD 0 < 10 := hlt
    have hmin : 5000 * (attempts?.getD 0 + 1) ≤ 5000 * MAX_RECONNECTS := by
      show 5000 * (attempts?.getD 0 + 1) ≤ 5000 * 10
      omega
    rw [min_eq_left hmin]

/-- Witness for C9: counter 3 schedules a 20-second delay and stores 4;
counter 10 is abandoned; a reopen resets to 0. -/
theorem reconnect_backoff_spec_witness :
    (some 3 : Option Nat).getD 0 < MAX_RECONNECTS ∧
    MAX_RECONNECTS ≤ (some 10 : Option Nat).getD 0 ∧
    reconnectSymbol (some 3) = (some 4, some 20000) ∧
    reconnectSymbol (some 10) = (some 10, none) ∧
    onOpenResetAttempts (some 10) = some 0 := by
  refine ⟨by norm_num [MAX_RECONNECTS], by norm_num [MAX_RECONNECTS], ?_, ?_,
    (reconnect_backoff_spec (some 10)).2.2⟩
  · have h := (reconnect_backoff_spec (some 3)).2.1 (by norm_num [MAX_RECONNECTS])
    rw [h]
    norm_num [MAX_RECONNECTS]
  · exact (reconnect_backoff_spec (some 10)).1 (by norm_num [MAX_RECONNECTS])

/-! ### C1: the three confirm conditions -/

theorem checkExhaustion_confirmed_keeps (w : WaitingRecord) (stats : Stats)
    (h : (checkExhaustion (some w) stats).1.confirmed = true) :
    (checkExhaustion (some w) stats).2 = some w := by
  simp only [checkExhaustion] at h ⊢
  by_cases h1 : EXHAUSTION_MAX_WAIT ≤ w.candleCount
  · rw [if_pos h1] at h
    exact absurd h (by simp)
  · rw [if_neg h1] at h ⊢
    by_cases h2 : w.aggressionHistory.length < 3
    · rw [if_pos h2] at h
      exact absurd h (by simp)
    · rw [if_neg h2] at h ⊢
      by_cases h3 : exhaustionConfirmed w stats = true
      · rw [if_pos h3]
      · rw [if_neg h3] at h
        exact absurd h (by simp)

/-- C1: whenever checkExhaustion reports confirmed for a waiting symbol,
the aggression history holds at least 3 samples, the current aggression
is strictly below K = EXHAUSTION_THRESHOLD times the mean of all prior
samples (every history entry except the current one), the last three
aggression samples are strictly decreasing, and the recorded price-change
deltas over the last two intervals are non-increasing or the latest delta
is under the 0.1 neutrality threshold. -/
theorem checkExhaustion_confirm_conditions (w : WaitingRecord) (stats : Stats)
    (hconf : (checkExhaustion (some w) stats).1.confirmed = true) :
    3 ≤ w.aggressionHistory.length ∧
    calculateAggression stats <
      EXHAUSTION_THRESHOLD *
        ((w.aggressionHistory.dropLast.map AggressionSample.aggression).sum /
          (w.aggressionHistory.dropLast.length : Rat)) ∧
    (∃ a b c, lastThree w.aggressionHistory = [a, b, c] ∧
      c.aggression < b.aggression ∧ b.aggression < a.aggression ∧
      (c.priceChange ≤ b.priceChange ∨ c.priceChange < 1 / 10)) := by
  simp only [checkExhaustion] at hconf
  by_cases h1 : EXHAUSTION_MAX_WAIT ≤ w.candleCount
  · rw [if_pos h1] at hconf
    exact absurd hconf (by simp)
  rw [if_neg h1] at hconf
  by_cases h2 : w.aggressionHistory.length < 3
  · rw [if_pos h2] at hconf
    exact absurd hconf (by simp)
  rw [if_neg h2] at hconf
  by_cases h3 : exhaustionConfirmed w stats = true
  swap
  · rw [if_neg h3] at hconf
    exact absurd hconf (by simp)
  rw [exhaustionConfirmed, Bool.and_eq_true, Bool.and_eq_true] at h3
  obtain ⟨⟨hdec, hvol⟩, hprice⟩ := h3
  have hlen : 3 ≤ w.aggressionHistory.length := by omega
  have hl3 : (lastThree w.aggressionHistory).length = 3 := by
    rw [lastThree, List.length_drop]
    omega
  obtain ⟨a, b, c, habc⟩ := exists_three _ hl3
  refine ⟨hlen, ?_, a, b, c, habc, ?_, ?_, ?_⟩
  · have hdl : ¬ w.aggressionHistory.dropLast.length = 0 := by
      rw [List.length_dropLast]
      omega
    have hd := of_decide_eq_true hdec
    rw [calculateAvgAggression, if_neg hdl, foldl_add_map, zero_add] at hd
    exact hd
  · rw [isVolumeDecreasing, if_neg h2, habc] at hvol
    rw [Bool.and_eq_true, decide_eq_true_eq, decide_eq_true_eq] at hvol
    exact hvol.1
  · rw [isVolumeDecreasing, if_neg h2, habc] at hvol
    rw [Bool.and_eq_true, decide_eq_true_eq, decide_eq_true_eq] at hvol
    exact hvol.2
  · rw [isPriceSlowing, if_neg h2, habc] at hprice
    rw [Bool.or_eq_true, decide_eq_true_eq, decide_eq_true_eq] at hprice
    rcases hprice with hlt | hth
    · exact Or.inl (le_of_lt hlt)
    · exact Or.inr hth

/-- A waiting record whose history already shows a sustained fade. -/
def sampleWaiting : WaitingRecord :=
  { pendingStats := sampleStats5, waitStartTime := 0, candleCount := 1,
    aggressionHistory := [⟨0, 1000, 1⟩, ⟨1, 400, 1 / 2⟩, ⟨2, 100, 0⟩] }

/-- Witness for C1: a concrete confirming history. -/
theorem checkExhaustion_confirm_conditions_witness :
    (checkExhaustion (some sampleWaiting) sampleStats5).1.confirmed = true ∧
    (3 ≤ sampleWaiting.aggressionHistory.length ∧
      calculateAggression sampleStats5 <
        EXHAUSTION_THRESHOLD *
          ((sampleWaiting.aggressionHistory.dropLast.map AggressionSample.aggression).sum /
            (sampleWaiting.aggressionHistory.dropLast.length : Rat)) ∧
      (∃ a b c, lastThree sampleWaiting.aggressionHistory = [a, b, c] ∧
        c.aggression < b.aggression ∧ b.aggression < a.aggression ∧
        (c.priceChange ≤ b.priceChange ∨ c.priceChange < 1 / 10))) :=
  ⟨by norm_num [checkExhaustion, exhaustionConfirmed, sampleWaiting, sampleStats5,
      calculateAggression, calculateAvgAggression, isVolumeDecreasing, isPriceSlowing,
      lastThree, EXHAUSTION_MAX_WAIT, EXHAUSTION_THRESHOLD],
   checkExhaustion_confirm_conditions sampleWaiting sampleStats5
    (by norm_num [checkExhaustion, exhaustionConfirmed, sampleWaiting, sampleStats5,
      calculateAggression, calculateAvgAggression, isVolumeDecreasing, isPriceSlowing,
      lastThree, EXHAUSTION_MAX_WAIT, EXHAUSTION_THRESHOLD])⟩

/-! ### C2: confirmed exhaustion dispatches the captured pendingStats -/

/-- C2: on a confirmed exhaustion that passes the cooldown gate, the
stats handed to the dispatcher are exactly the pendingStats captured by
startWaiting at candidate time (updateAggression never touches them),
the waiting record is deleted, the symbol's window is reset, and a
cooldown timestamp is stamped for the (symbol, dominant side) key. -/
theorem handleMessage_confirm_dispatch (cfg : SymbolConfig) (st : PipelineState)
    (w : WaitingRecord) (symbol : String) (now : Int) (input : TradeInput) (stats : Stats)
    (hw : st.waiting = some w)
    (hstats : (st.window.addTrade input.timestamp input.price input.quantity
        input.isBuyerMaker).getStats = some stats)
    (hvol : cfg.minVolumeUSD * (1 / 2) ≤ stats.totalVolume)
    (hconf : (checkExhaustion (some (updateAggression w now stats)) stats).1.confirmed = true)
    (hcan : canAlert (some cfg) st.cooldown symbol stats.dominantSide now = true) :
    (∀ (s : Stats) (n : Int), (startWaiting n s).pendingStats = s) ∧
    (handleMessage (some cfg) st symbol now input).alert = some w.pendingStats ∧
    (handleMessage (some cfg) st symbol now input).state.waiting = none ∧
    (handleMessage (some cfg) st symbol now input).state.window =
      (st.window.addTrade input.timestamp input.price input.quantity input.isBuyerMaker).reset ∧
    mapGet (handleMessage (some cfg) st symbol now input).state.cooldown
      (symbol, stats.dominantSide) = some now := by
  have hkeep := checkExhaustion_confirmed_keeps (updateAggression w now stats) stats hconf
  have hr : handleMessage (some cfg) st symbol now input =
      { state :=
          { window := (st.window.addTrade input.timestamp input.price input.quantity
              input.isBuyerMaker).reset
            waiting := none
            cooldown := recordAlert st.cooldown symbol stats.dominantSide now }
        alert := getPendingStats
          (checkExhaustion (some (updateAggression w now stats)) stats).2 } := by
    simp only [handleMessage, hstats, hw]
    rw [if_pos hvol, if_pos hconf, if_pos hcan]
  refine ⟨fun s n => rfl, ?_, ?_, ?_, ?_⟩
  · rw [hr]
    show getPendingStats (checkExhaustion (some (updateAggression w now stats)) stats).2
      = some w.pendingStats
    rw [hkeep]
    rfl
  · rw [hr]
  · rw [hr]
  · rw [hr]
    exact mapGet_mapSet_self st.cooldown (symbol, stats.dominantSide) now

/-! ### C3: exhaustion timeout -/

/-- C3: once the tick count of a waiting symbol reaches
EXHAUSTION_MAX_WAIT, checkExhaustion drops the record and reports
timeout, handleMessage dispatches no alert, the symbol's window is
reset, and the cooldown store is left unchanged. -/
theorem handleMessage_timeout_reset (cfg : SymbolConfig) (st : PipelineState)
    (w : WaitingRecord) (symbol : String) (now : Int) (input : TradeInput) (stats : Stats)
    (hw : st.waiting = some w)
    (hstats : (st.window.addTrade input.timestamp input.price input.quantity
        input.isBuyerMaker).getStats = some stats)
    (hvol : cfg.minVolumeUSD * (1 / 2) ≤ stats.totalVolume)
    (htick : EXHAUSTION_MAX_WAIT ≤ w.candleCount + 1) :
    (checkExhaustion (some (updateAggression w now stats)) stats).1.confirmed = false ∧
    (checkExhaustion (some (updateAggression w now stats)) stats).1.reason =
      CheckReason.timeout ∧
    (checkExhaustion (some (updateAggression w now stats)) stats).2 = none ∧
    (handleMessage (some cfg) st symbol now input).alert = none ∧
    (handleMessage (some cfg) st symbol now input).state.waiting = none ∧
    (handleMessage (some cfg) st symbol now input).state.window =
      (st.window.addTrade input.timestamp input.price input.quantity input.isBuyerMaker).reset ∧
    (handleMessage (some cfg) st symbol now input).state.cooldown = st.cooldown := by
  have htick' : EXHAUSTION_MAX_WAIT ≤ (updateAggression w now stats).candleCount := htick
  have hres : checkExhaustion (some (updateAggression w now stats)) stats =
      ({ confirmed := false, reason := CheckReason.timeout }, none) := by
    simp only [checkExhaustion]
    rw [if_pos htick']
  have hr : handleMessage (some cfg) st symbol now input =
      { state :=
          { window := (st.window.addTrade input.timestamp input.price input.quantity
              input.isBuyerMaker).reset
            waiting := none
            cooldown := st.cooldown }
        alert := none } := by
    simp only [handleMessage, hstats, hw]
    rw [if_pos hvol, hres]
    simp
  refine ⟨by rw [hres], by rw [hres], by rw [hres], by rw [hr], by rw [hr], by rw [hr],
    by rw [hr]⟩

/-- The stats snapshot produced by adding sampleInput to the fresh
sampleWindow: one sell-side trade worth 100 USD. -/
def sampleStatsSell : Stats :=
  { buyVolume := 0, sellVolume := 100, totalVolume := 100, dominantSide := Side.sell,
    dominance := 100, priceChange := 0, duration := 0, tradeCount := 1, lastPrice := some 100 }

/-- A waiting record one tick before a confirming update. -/
def sampleWaitingPrev : WaitingRecord :=
  { pendingStats := sampleStats5, waitStartTime := 0, candleCount := 1,
    aggressionHistory := [⟨0, 1000, 1⟩, ⟨1, 400, 1 / 2⟩] }

/-- Pipeline state for the C2 witness: fresh window, waiting symbol,
empty cooldown store. -/
def c2State : PipelineState :=
  { window := sampleWindow, waiting := some sampleWaitingPrev, cooldown := [] }

/-- A waiting record whose next tick hits the maxWaitTicks timeout. -/
def sampleWaitingOld : WaitingRecord :=
  { pendingStats := sampleStats5, waitStartTime := 0, candleCount := 2,
    aggressionHistory := [⟨0, 1000, 1⟩, ⟨1, 400, 1 / 2⟩] }

/-- Pipeline state for the C3 witness. -/
def c3State : PipelineState :=
  { window := sampleWindow, waiting := some sampleWaitingOld, cooldown := [] }

/-- Witness for C2: a concrete message run through the full confirm path. -/
theorem handleMessage_confirm_dispatch_witness :
    c2State.waiting = some sampleWaitingPrev ∧
    (c2State.window.addTrade sampleInput.timestamp sampleInput.price sampleInput.quantity
        sampleInput.isBuyerMaker).getStats = some sampleStatsSell ∧
    sampleConfigOn.minVolumeUSD * (1 / 2) ≤ sampleStatsSell.totalVolume ∧
    (checkExhaustion (some (updateAggression sampleWaitingPrev 2000 sampleStatsSell))
        sampleStatsSell).1.confirmed = true ∧
    canAlert (some sampleConfigOn) c2State.cooldown "ADAUSDT" sampleStatsSell.dominantSide 2000
      = true ∧
    ((∀ (s : Stats) (n : Int), (startWaiting n s).pendingStats = s) ∧
      (handleMessage (some sampleConfigOn) c2State "ADAUSDT" 2000 sampleInput).alert =
        some sampleWaitingPrev.pendingStats ∧
      (handleMessage (some sampleConfigOn) c2State "ADAUSDT" 2000 sampleInput).state.waiting =
        none ∧
      (handleMessage (some sampleConfigOn) c2State "ADAUSDT" 2000 sampleInput).state.window =
        (c2State.window.addTrade sampleInput.timestamp sampleInput.price sampleInput.quantity
          sampleInput.isBuyerMaker).reset ∧
      mapGet (handleMessage (some sampleConfigOn) c2State "ADAUSDT" 2000 sampleInput).state.cooldown
        ("ADAUSDT", sampleStatsSell.dominantSide) = some 2000) := by
  have h1 : c2State.waiting = some sampleWaitingPrev := rfl
  have h2 : (c2State.window.addTrade sampleInput.timestamp sampleInput.price
      sampleInput.quantity sampleInput.isBuyerMaker).getStats = some sampleStatsSell := by
    norm_num [c2State, sampleWindow, sampleInput, sampleStatsSell, SymbolState.addTrade,
      SymbolState.cleanup, SymbolState.getStats, mkTrade]
  have h3 : sampleConfigOn.minVolumeUSD * (1 / 2) ≤ sampleStatsSell.totalVolume := by
    norm_num [sampleConfigOn, sampleStatsSell]
  have h4 : (checkExhaustion (some (updateAggression sampleWaitingPrev 2000 sampleStatsSell))
      sampleStatsSell).1.confirmed = true := by
    norm_num [checkExhaustion, exhaustionConfirmed, updateAggression, sampleWaitingPrev,
      sampleStatsSell, calculateAggression, calculateAvgAggression, isVolumeDecreasing,
      isPriceSlowing, lastThree, EXHAUSTION_MAX_WAIT, EXHAUSTION_THRESHOLD,
      EXHAUSTION_AVG_CANDLES]
  have h5 : canAlert (some sampleConfigOn) c2State.cooldown "ADAUSDT"
      sampleStatsSell.dominantSide 2000 = true := rfl
  exact ⟨h1, h2, h3, h4, h5,
    handleMessage_confirm_dispatch sampleConfigOn c2State sampleWaitingPrev "ADAUSDT" 2000
      sampleInput sampleStatsSell h1 h2 h3 h4 h5⟩

/-- Witness for C3: a concrete message run through the timeout path. -/
theorem handleMessage_timeout_reset_witness :
    c3State.waiting = some sampleWaitingOld ∧
    (c3State.window.addTrade sampleInput.timestamp sampleInput.price sampleInput.quantity
        sampleInput.isBuyerMaker).getStats = some sampleStatsSell ∧
    sampleConfigOn.minVolumeUSD * (1 / 2) ≤ sampleStatsSell.totalVolume ∧
    EXHAUSTION_MAX_WAIT ≤ sampleWaitingOld.candleCount + 1 ∧
    ((checkExhaustion (some (updateAggression sampleWaitingOld 2000 sampleStatsSell))
        sampleStatsSell).1.confirmed = false ∧
      (checkExhaustion (some (updateAggression sampleWaitingOld 2000 sampleStatsSell))
        sampleStatsSell).1.reason = CheckReason.timeout ∧
      (checkExhaustion (some (updateAggression sampleWaitingOld 2000 sampleStatsSell))
        sampleStatsSell).2 = none ∧
      (handleMessage (some sampleConfigOn) c3State "ADAUSDT" 2000 sampleInput).alert = none ∧
      (handleMessage (some sampleConfigOn) c3State "ADAUSDT" 2000 sampleInput).state.waiting =
        none ∧
      (handleMessage (some sampleConfigOn) c3State "ADAUSDT" 2000 sampleInput).state.window =
        (c3State.window.addTrade sampleInput.timestamp sampleInput.price sampleInput.quantity
          sampleInput.isBuyerMaker).reset ∧
      (handleMessage (some sampleConfigOn) c3State "ADAUSDT" 2000 sampleInput).state.cooldown =
        c3State.cooldown) := by
  have h1 : c3State.waiting = some sampleWaitingOld := rfl
  have h2 : (c3State.window.addTrade sampleInput.timestamp sampleInput.price
      sampleInput.quantity sampleInput.isBuyerMaker).getStats = some sampleStatsSell := by
    norm_num [c3State, sampleWindow, sampleInput, sampleStatsSell, SymbolState.addTrade,
      SymbolState.cleanup, SymbolState.getStats, mkTrade]
  have h3 : sampleConfigOn.minVolumeUSD * (1 / 2) ≤ sampleStatsSell.totalVolume := by
    norm_num [sampleConfigOn, sampleStatsSell]
  have h4 : EXHAUSTION_MAX_WAIT ≤ sampleWaitingOld.candleCount + 1 := by
    norm_num [EXHAUSTION_MAX_WAIT, sampleWaitingOld]
  exact ⟨h1, h2, h3, h4,
    handleMessage_timeout_reset sampleConfigOn c3State sampleWaitingOld "ADAUSDT" 2000
      sampleInput sampleStatsSell h1 h2 h3 h4⟩

end BotLiq
